import Mathlib

/-!
Shallow embedding of the animation core of `src/three_jsProject/src/main.js`.

The core consists of:
  - the frame loop `animate` (requests the next frame, increments the torus
    rotation on all three axes by 0.01, advances the orbit controls, renders);
  - the scroll handler `moveCamera` (increments the moon rotation by fixed
    per-event deltas and sets the camera Y position to the sampled scroll
    offset times -0.0002);
  - the startup statements that initialize the state the core later mutates,
    including the dead statement `moon.position.setZ = (30)`, which in
    JavaScript assigns 30 to an own property named `setZ` (shadowing the
    `Vector3.setZ` method) instead of calling it, so the moon Z coordinate
    keeps its constructor default 0.

JavaScript numbers are IEEE float64; the embedding uses exact rationals, so
the per-frame constants 0.01, 0.05, 0.075 and -0.0002 are exact.  The orbit
controls component is external to the repository; its internal state is
modelled as an opaque counter of `update()` calls, and any camera motion it
may apply on user drag is outside the embedded core, matching the spec's
scoping of Orbit Controls as an external collaborator.
-/

namespace ThreeJs

/-- A triple of rational scalars, standing for a three.js `Vector3` (position)
or `Euler` (rotation) as mutated by the core. -/
@[ext]
structure Vec3 where
  x : ℚ
  y : ℚ
  z : ℚ
deriving DecidableEq

/-- The mutable state the core reads and writes.  `moonPosSetZShadow` records
the own property `setZ` written by the dead statement
`moon.position.setZ = (30)`: in JavaScript that assignment stores 30 in a
property slot shadowing the method reference and leaves the coordinates
untouched.  `controlsUpdates` is the opaque orbit-control state (count of
`controls.update()` calls), `renderCalls` counts `renderer.render` calls and
`pendingFrames` counts `requestAnimationFrame` requests issued and not yet
consumed by the host. -/
structure State where
  torusRotation : Vec3
  moonRotation : Vec3
  moonPosition : Vec3
  moonPosSetZShadow : Option ℚ
  cameraPosition : Vec3
  controlsUpdates : Nat
  renderCalls : Nat
  pendingFrames : Nat
deriving DecidableEq

/-- The statements of the body of `animate`, one constructor per source
statement, in the order they appear in the source:
`requestAnimationFrame(animate)`, the three torus rotation increments,
`controls.update()`, `renderer.render(scene, camera)`. -/
inductive Stmt where
  | requestFrame
  | incTorusX
  | incTorusY
  | incTorusZ
  | controlsUpdate
  | render
deriving DecidableEq

/-- Effect of a single `animate` body statement on the state. -/
def execStmt (s : State) : Stmt → State
  | Stmt.requestFrame => { s with pendingFrames := s.pendingFrames + 1 }
  | Stmt.incTorusX =>
      { s with torusRotation := { s.torusRotation with x := s.torusRotation.x + 0.01 } }
  | Stmt.incTorusY =>
      { s with torusRotation := { s.torusRotation with y := s.torusRotation.y + 0.01 } }
  | Stmt.incTorusZ =>
      { s with torusRotation := { s.torusRotation with z := s.torusRotation.z + 0.01 } }
  | Stmt.controlsUpdate => { s with controlsUpdates := s.controlsUpdates + 1 }
  | Stmt.render => { s with renderCalls := s.renderCalls + 1 }

/-- The body of `animate` as the list of its statements in source order. -/
def animateStmts : List Stmt :=
  [Stmt.requestFrame, Stmt.incTorusX, Stmt.incTorusY, Stmt.incTorusZ,
   Stmt.controlsUpdate, Stmt.render]

/-- One invocation of `animate` (the Update Step): execute its statements in
source order.  The JS function returns `undefined`; the embedding returns the
updated state. -/
def animate (s : State) : State :=
  animateStmts.foldl execStmt s

/-- Executing only the first `k` statements of an `animate` invocation: the
state reached when the invocation raises an error after the `k`-th statement
(or, for `k` at least six, runs to completion). -/
def execUpTo (k : Nat) (s : State) : State :=
  (animateStmts.take k).foldl execStmt s

/-- One invocation of `moveCamera` (the Scroll Handler) with sampled scroll
offset `t` (the JS value `document.body.getBoundingClientRect().top`):
increments the moon rotation by the fixed deltas (0.05, 0.075, 0.05) and sets
the camera Y position to `t * -0.0002` (an absolute set). -/
def moveCamera (t : ℚ) (s : State) : State :=
  { s with
      moonRotation :=
        { x := s.moonRotation.x + 0.05
          y := s.moonRotation.y + 0.075
          z := s.moonRotation.z + 0.05 }
      cameraPosition := { s.cameraPosition with y := t * (-0.0002) } }

/-- An event delivered by the host's single-threaded event queue: either one
frame callback (an `animate` invocation) or one scroll event carrying the
scroll offset the handler samples. -/
inductive Op where
  | frame
  | scroll (t : ℚ)
deriving DecidableEq

/-- Effect of one queued event on the state. -/
def step (s : State) : Op → State
  | Op.frame => animate s
  | Op.scroll t => moveCamera t s

/-- Run a whole interleaving of frame callbacks and scroll events. -/
def run (s : State) (ops : List Op) : State :=
  ops.foldl step s

/-- Process a sequence of scroll events with the given sampled offsets. -/
def runScroll (ts : List ℚ) (s : State) : State :=
  ts.foldl (fun s t => moveCamera t s) s

/-- Number of frame callbacks in an interleaving. -/
def countFrames : List Op → Nat
  | [] => 0
  | Op.frame :: rest => countFrames rest + 1
  | Op.scroll _ :: rest => countFrames rest

/-- The state of a freshly constructed scene: all transforms at their
three.js constructor defaults (rotation (0,0,0), position (0,0,0)), no
shadowing property on the moon position, no `update`, `render` or frame
requests yet. -/
def State.init0 : State :=
  { torusRotation := ⟨0, 0, 0⟩
    moonRotation := ⟨0, 0, 0⟩
    moonPosition := ⟨0, 0, 0⟩
    moonPosSetZShadow := none
    cameraPosition := ⟨0, 0, 0⟩
    controlsUpdates := 0
    renderCalls := 0
    pendingFrames := 0 }

/-- Startup statement `camera.position.setZ(30)`: a genuine method call that
sets the camera Z coordinate. -/
def cameraSetZ (v : ℚ) (s : State) : State :=
  { s with cameraPosition := { s.cameraPosition with z := v } }

/-- Startup statement `moon.position.setZ = (30)`: in JavaScript this is a
property assignment, not a call, so it stores the value in an own property
shadowing the `setZ` method and changes no coordinate. -/
def moonPosSetZAssign (v : ℚ) (s : State) : State :=
  { s with moonPosSetZShadow := some v }

/-- Startup statement `moon.position.setX(2)`: a genuine method call that
sets the moon X coordinate. -/
def moonSetX (v : ℚ) (s : State) : State :=
  { s with moonPosition := { s.moonPosition with x := v } }

/-- The state after the startup statements that touch the embedded state, in
source order: `camera.position.setZ(30)`, the one-off
`renderer.render(scene, camera)`, `moon.position.setZ = (30)` (dead
assignment), `moon.position.setX(2)`.  This is the state just before the
initial `animate()` call. -/
def initialState : State :=
  moonSetX 2 (moonPosSetZAssign 30 (execStmt (cameraSetZ 30 State.init0) Stmt.render))

/- ### Per-invocation effect lemmas, by unfolding one `animate` or
`moveCamera` invocation. -/

theorem animate_torus_x (s : State) :
    (animate s).torusRotation.x = s.torusRotation.x + 0.01 := rfl

theorem animate_torus_y (s : State) :
    (animate s).torusRotation.y = s.torusRotation.y + 0.01 := rfl

theorem animate_torus_z (s : State) :
    (animate s).torusRotation.z = s.torusRotation.z + 0.01 := rfl

theorem animate_moonRotation (s : State) :
    (animate s).moonRotation = s.moonRotation := rfl

theorem animate_moonPosition (s : State) :
    (animate s).moonPosition = s.moonPosition := rfl

theorem animate_cameraPosition (s : State) :
    (animate s).cameraPosition = s.cameraPosition := rfl

theorem animate_controlsUpdates (s : State) :
    (animate s).controlsUpdates = s.controlsUpdates + 1 := rfl

theorem animate_renderCalls (s : State) :
    (animate s).renderCalls = s.renderCalls + 1 := rfl

theorem animate_pendingFrames (s : State) :
    (animate s).pendingFrames = s.pendingFrames + 1 := rfl

theorem moveCamera_moon_x (t : ℚ) (s : State) :
    (moveCamera t s).moonRotation.x = s.moonRotation.x + 0.05 := rfl

theorem moveCamera_moon_y (t : ℚ) (s : State) :
    (moveCamera t s).moonRotation.y = s.moonRotation.y + 0.075 := rfl

theorem moveCamera_moon_z (t : ℚ) (s : State) :
    (moveCamera t s).moonRotation.z = s.moonRotation.z + 0.05 := rfl

theorem moveCamera_camera_y (t : ℚ) (s : State) :
    (moveCamera t s).cameraPosition.y = t * (-0.0002) := rfl

theorem moveCamera_torusRotation (t : ℚ) (s : State) :
    (moveCamera t s).torusRotation = s.torusRotation := rfl

theorem moveCamera_moonPosition (t : ℚ) (s : State) :
    (moveCamera t s).moonPosition = s.moonPosition := rfl

/- ### Iteration lemmas for repeated frame callbacks. -/

theorem animate_iter_torus_x (N : Nat) (s : State) :
    (animate^[N] s).torusRotation.x = s.torusRotation.x + (N : ℚ) * 0.01 := by
  induction N generalizing s with
  | zero => simp
  | succ n ih =>
      rw [Function.iterate_succ_apply, ih (animate s), animate_torus_x]
      push_cast
      ring

theorem animate_iter_torus_y (N : Nat) (s : State) :
    (animate^[N] s).torusRotation.y = s.torusRotation.y + (N : ℚ) * 0.01 := by
  induction N generalizing s with
  | zero => simp
  | succ n ih =>
      rw [Function.iterate_succ_apply, ih (animate s), animate_torus_y]
      push_cast
      ring

theorem animate_iter_torus_z (N : Nat) (s : State) :
    (animate^[N] s).torusRotation.z = s.torusRotation.z + (N : ℚ) * 0.01 := by
  induction N generalizing s with
  | zero => simp
  | succ n ih =>
      rw [Function.iterate_succ_apply, ih (animate s), animate_torus_z]
      push_cast
      ring

theorem animate_iter_cameraPosition (N : Nat) (s : State) :
    (animate^[N] s).cameraPosition = s.cameraPosition := by
  induction N generalizing s with
  | zero => rfl
  | succ n ih =>
      rw [Function.iterate_succ_apply, ih (animate s), animate_cameraPosition]

theorem animate_iter_moonRotation (N : Nat) (s : State) :
    (animate^[N] s).moonRotation = s.moonRotation := by
  induction N generalizing s with
  | zero => rfl
  | succ n ih =>
      rw [Function.iterate_succ_apply, ih (animate s), animate_moonRotation]

/- ### Lemmas about whole interleavings. -/

theorem run_append (s : State) (l l' : List Op) :
    run s (l ++ l') = run (run s l) l' := by
  simp [run, List.foldl_append]

theorem run_replicate_frame (n : Nat) (s : State) :
    run s (List.replicate n Op.frame) = animate^[n] s := by
  induction n generalizing s with
  | zero => rfl
  | succ m ih =>
      rw [List.replicate_succ]
      show run (animate s) (List.replicate m Op.frame) = animate^[m + 1] s
      rw [ih (animate s), Function.iterate_succ_apply]

theorem run_torus_x (ops : List Op) (s : State) :
    (run s ops).torusRotation.x = s.torusRotation.x + (countFrames ops : ℚ) * 0.01 := by
  induction ops generalizing s with
  | nil => simp [run, countFrames]
  | cons op rest ih =>
      cases op with
      | frame =>
          show (run (animate s) rest).torusRotation.x = _
          rw [ih (animate s), animate_torus_x, countFrames]
          push_cast
          ring
      | scroll t =>
          show (run (moveCamera t s) rest).torusRotation.x = _
          rw [ih (moveCamera t s)]
          rw [show (moveCamera t s).torusRotation.x = s.torusRotation.x from rfl, countFrames]

theorem run_torus_y (ops : List Op) (s : State) :
    (run s ops).torusRotation.y = s.torusRotation.y + (countFrames ops : ℚ) * 0.01 := by
  induction ops generalizing s with
  | nil => simp [run, countFrames]
  | cons op rest ih =>
      cases op with
      | frame =>
          show (run (animate s) rest).torusRotation.y = _
          rw [ih (animate s), animate_torus_y, countFrames]
          push_cast
          ring
      | scroll t =>
          show (run (moveCamera t s) rest).torusRotation.y = _
          rw [ih (moveCamera t s)]
          rw [show (moveCamera t s).torusRotation.y = s.torusRotation.y from rfl, countFrames]

theorem run_torus_z (ops : List Op) (s : State) :
    (run s ops).torusRotation.z = s.torusRotation.z + (countFrames ops : ℚ) * 0.01 := by
  induction ops generalizing s with
  | nil => simp [run, countFrames]
  | cons op rest ih =>
      cases op with
      | frame =>
          show (run (animate s) rest).torusRotation.z = _
          rw [ih (animate s), animate_torus_z, countFrames]
          push_cast
          ring
      | scroll t =>
          show (run (moveCamera t s) rest).torusRotation.z = _
          rw [ih (moveCamera t s)]
          rw [show (moveCamera t s).torusRotation.z = s.torusRotation.z from rfl, countFrames]

/- ### Lemmas about sequences of scroll events. -/

theorem runScroll_moon_x (ts : List ℚ) (s : State) :
    (runScroll ts s).moonRotation.x = s.moonRotation.x + (ts.length : ℚ) * 0.05 := by
  induction ts generalizing s with
  | nil => simp [runScroll]
  | cons t rest ih =>
      show (runScroll rest (moveCamera t s)).moonRotation.x = _
      rw [ih (moveCamera t s), moveCamera_moon_x, List.length_cons]
      push_cast
      ring

theorem runScroll_moon_y (ts : List ℚ) (s : State) :
    (runScroll ts s).moonRotation.y = s.moonRotation.y + (ts.length : ℚ) * 0.075 := by
  induction ts generalizing s with
  | nil => simp [runScroll]
  | cons t rest ih =>
      show (runScroll rest (moveCamera t s)).moonRotation.y = _
      rw [ih (moveCamera t s), moveCamera_moon_y, List.length_cons]
      push_cast
      ring

theorem runScroll_moon_z (ts : List ℚ) (s : State) :
    (runScroll ts s).moonRotation.z = s.moonRotation.z + (ts.length : ℚ) * 0.05 := by
  induction ts generalizing s with
  | nil => simp [runScroll]
  | cons t rest ih =>
      show (runScroll rest (moveCamera t s)).moonRotation.z = _
      rw [ih (moveCamera t s), moveCamera_moon_z, List.length_cons]
      push_cast
      ring

/- ### Prefix execution: statements after an error do not run. -/

theorem foldl_pendingFrames_of_no_request (l : List Stmt)
    (hl : Stmt.requestFrame ∉ l) (s : State) :
    (l.foldl execStmt s).pendingFrames = s.pendingFrames := by
  induction l generalizing s with
  | nil => rfl
  | cons a rest ih =>
      have ha : a ≠ Stmt.requestFrame := fun h => hl (h ▸ List.mem_cons_self a rest)
      have hrest : Stmt.requestFrame ∉ rest := fun h => hl (List.mem_cons_of_mem a h)
      show ((rest.foldl execStmt (execStmt s a))).pendingFrames = s.pendingFrames
      rw [ih hrest (execStmt s a)]
      cases a with
      | requestFrame => exact absurd rfl ha
      | incTorusX => rfl
      | incTorusY => rfl
      | incTorusZ => rfl
      | controlsUpdate => rfl
      | render => rfl

/- ### The claims. -/

/-- C1: starting from Torus rotation (0,0,0), after N invocations of the
Update Step (`animate`) the Torus rotation on each of the three axes equals
N * 0.01 exactly (no normalization or wraparound in the core); in particular
after exactly 100 invocations each axis equals 1. -/
theorem C1_torus_rotation_after_N_frames (s : State)
    (h : s.torusRotation = (⟨0, 0, 0⟩ : Vec3)) (N : Nat) :
    ((animate^[N] s).torusRotation.x = (N : ℚ) * 0.01 ∧
     (animate^[N] s).torusRotation.y = (N : ℚ) * 0.01 ∧
     (animate^[N] s).torusRotation.z = (N : ℚ) * 0.01) ∧
    ((animate^[100] s).torusRotation.x = 1 ∧
     (animate^[100] s).torusRotation.y = 1 ∧
     (animate^[100] s).torusRotation.z = 1) := by
  have hx : s.torusRotation.x = 0 := by rw [h]
  have hy : s.torusRotation.y = 0 := by rw [h]
  have hz : s.torusRotation.z = 0 := by rw [h]
  refine ⟨⟨?_, ?_, ?_⟩, ?_, ?_, ?_⟩
  · rw [animate_iter_torus_x, hx, zero_add]
  · rw [animate_iter_torus_y, hy, zero_add]
  · rw [animate_iter_torus_z, hz, zero_add]
  · rw [animate_iter_torus_x, hx]
    norm_num
  · rw [animate_iter_torus_y, hy]
    norm_num
  · rw [animate_iter_torus_z, hz]
    norm_num

/-- Witness for C1: the startup state has Torus rotation (0,0,0), and the
conclusion holds there with N = 7. -/
theorem C1_torus_rotation_after_N_frames_witness :
    initialState.torusRotation = (⟨0, 0, 0⟩ : Vec3) ∧
    (((animate^[7] initialState).torusRotation.x = ((7 : ℕ) : ℚ) * 0.01 ∧
      (animate^[7] initialState).torusRotation.y = ((7 : ℕ) : ℚ) * 0.01 ∧
      (animate^[7] initialState).torusRotation.z = ((7 : ℕ) : ℚ) * 0.01) ∧
     ((animate^[100] initialState).torusRotation.x = 1 ∧
      (animate^[100] initialState).torusRotation.y = 1 ∧
      (animate^[100] initialState).torusRotation.z = 1)) :=
  ⟨rfl, C1_torus_rotation_after_N_frames initialState rfl 7⟩

/-- C2: the next-frame request is the first statement of `animate`, so after
executing any nonempty prefix of an invocation's statements (in particular
when a later statement raises an error and the rest never run) exactly one
more frame request is pending than before the invocation. -/
theorem C2_requestFrame_first (s : State) (k : Nat) (hk : 1 ≤ k) :
    animateStmts.head? = some Stmt.requestFrame ∧
    (execUpTo k s).pendingFrames = s.pendingFrames + 1 := by
  refine ⟨rfl, ?_⟩
  cases k with
  | zero => exact absurd hk (by norm_num)
  | succ n =>
      have hno : Stmt.requestFrame ∉
          ([Stmt.incTorusX, Stmt.incTorusY, Stmt.incTorusZ, Stmt.controlsUpdate,
            Stmt.render].take n) := by
        intro hmem
        exact absurd (List.take_subset n _ hmem) (by decide)
      show ((([Stmt.incTorusX, Stmt.incTorusY, Stmt.incTorusZ, Stmt.controlsUpdate,
          Stmt.render]).take n).foldl execStmt
            (execStmt s Stmt.requestFrame)).pendingFrames = s.pendingFrames + 1
      rw [foldl_pendingFrames_of_no_request _ hno]
      rfl

/-- Witness for C2 at the startup state with a prefix of 3 statements (an
error inside the torus mutations). -/
theorem C2_requestFrame_first_witness :
    1 ≤ 3 ∧
    (animateStmts.head? = some Stmt.requestFrame ∧
     (execUpTo 3 initialState).pendingFrames = initialState.pendingFrames + 1) :=
  ⟨by decide, C2_requestFrame_first initialState 3 (by decide)⟩

/-- C3: after any sequence of scroll events, the camera Y position equals the
offset sampled at the last event times -0.0002, whatever the earlier offsets
were: the write is an absolute set, not an increment. -/
theorem C3_camera_y_absolute (ts : List ℚ) (t : ℚ) (s : State) :
    (runScroll (ts ++ [t]) s).cameraPosition.y = t * (-0.0002) := by
  unfold runScroll
  rw [List.foldl_append]
  rfl

/-- C4: the Moon rotation after M scroll events depends only on M: two offset
sequences of equal length produce identical Moon rotation from the same start
state, and from Moon rotation (0,0,0) the result is M times the fixed
per-axis deltas (0.05, 0.075, 0.05). -/
theorem C4_moon_rotation_scroll_count (ts1 ts2 : List ℚ) (s : State)
    (hlen : ts1.length = ts2.length) (h0 : s.moonRotation = (⟨0, 0, 0⟩ : Vec3)) :
    (runScroll ts1 s).moonRotation = (runScroll ts2 s).moonRotation ∧
    ((runScroll ts1 s).moonRotation.x = (ts1.length : ℚ) * 0.05 ∧
     (runScroll ts1 s).moonRotation.y = (ts1.length : ℚ) * 0.075 ∧
     (runScroll ts1 s).moonRotation.z = (ts1.length : ℚ) * 0.05) := by
  have hx : s.moonRotation.x = 0 := by rw [h0]
  have hy : s.moonRotation.y = 0 := by rw [h0]
  have hz : s.moonRotation.z = 0 := by rw [h0]
  constructor
  · apply Vec3.ext
    · rw [runScroll_moon_x, runScroll_moon_x, hlen]
    · rw [runScroll_moon_y, runScroll_moon_y, hlen]
    · rw [runScroll_moon_z, runScroll_moon_z, hlen]
  · refine ⟨?_, ?_, ?_⟩
    · rw [runScroll_moon_x, hx, zero_add]
    · rw [runScroll_moon_y, hy, zero_add]
    · rw [runScroll_moon_z, hz, zero_add]

/-- Witness for C4: two concrete length-2 scroll sequences of very different
magnitudes, from the startup state. -/
theorem C4_moon_rotation_scroll_count_witness :
    ([(5 : ℚ), -10].length = [(1000 : ℚ), 3].length ∧
     initialState.moonRotation = (⟨0, 0, 0⟩ : Vec3)) ∧
    ((runScroll [(5 : ℚ), -10] initialState).moonRotation =
        (runScroll [(1000 : ℚ), 3] initialState).moonRotation ∧
     ((runScroll [(5 : ℚ), -10] initialState).moonRotation.x =
        ([(5 : ℚ), -10].length : ℚ) * 0.05 ∧
      (runScroll [(5 : ℚ), -10] initialState).moonRotation.y =
        ([(5 : ℚ), -10].length : ℚ) * 0.075 ∧
      (runScroll [(5 : ℚ), -10] initialState).moonRotation.z =
        ([(5 : ℚ), -10].length : ℚ) * 0.05)) :=
  ⟨⟨rfl, rfl⟩,
   C4_moon_rotation_scroll_count [(5 : ℚ), -10] [(1000 : ℚ), 3] initialState rfl rfl⟩

/-- C5: for the scroll offset sequence [0, -100, -250] the camera Y position
after each successive event is 0, then 0.02, then 0.05, exactly over the
rationals. -/
theorem C5_camera_y_sequence :
    (runScroll [(0 : ℚ)] initialState).cameraPosition.y = 0 ∧
    (runScroll [(0 : ℚ), -100] initialState).cameraPosition.y = 0.02 ∧
    (runScroll [(0 : ℚ), -100, -250] initialState).cameraPosition.y = 0.05 := by
  refine ⟨?_, ?_, ?_⟩
  · show (0 : ℚ) * (-0.0002) = 0
    norm_num
  · show (-100 : ℚ) * (-0.0002) = 0.02
    norm_num
  · show (-250 : ℚ) * (-0.0002) = 0.05
    norm_num

/-- C6 is false as stated: the Update Step (`animate`) does not write the
camera position at all, while the Scroll Handler (`moveCamera`) — a core
component other than the Update Step and the Orbit Controls — writes the
camera Y coordinate.  Concretely, one scroll event with offset -100 changes
the camera position of the startup state, and one `animate` invocation leaves
it unchanged. -/
theorem C6_counterexample :
    (moveCamera (-100) initialState).cameraPosition ≠ initialState.cameraPosition ∧
    (animate initialState).cameraPosition = initialState.cameraPosition := by
  constructor
  · intro hEq
    have hy : ((-100 : ℚ)) * (-0.0002) = 0 := congrArg Vec3.y hEq
    norm_num at hy
  · rfl

/-- C6 (amended): the Camera's position is mutated only by the Scroll Handler
(which writes the Y-position) and by the external Orbit Controls component;
the Update Step itself writes no camera coordinate.  In the embedding: any
queued core event that changes the camera position is a scroll event, and
`animate` preserves the whole camera position. -/
theorem C6_camera_written_only_by_scroll (op : Op) (s : State)
    (h : (step s op).cameraPosition ≠ s.cameraPosition) :
    (∃ t, op = Op.scroll t) ∧
    ∀ s2 : State, (animate s2).cameraPosition = s2.cameraPosition := by
  refine ⟨?_, fun s2 => animate_cameraPosition s2⟩
  cases op with
  | frame => exact absurd (animate_cameraPosition s) h
  | scroll t => exact ⟨t, rfl⟩

/-- Witness for the amended C6 at a concrete scroll event from the startup
state. -/
theorem C6_camera_written_only_by_scroll_witness :
    (step initialState (Op.scroll (-100))).cameraPosition ≠ initialState.cameraPosition ∧
    ((∃ t, Op.scroll (-100) = Op.scroll t) ∧
     ∀ s2 : State, (animate s2).cameraPosition = s2.cameraPosition) := by
  have hne : (step initialState (Op.scroll (-100))).cameraPosition ≠
      initialState.cameraPosition := by
    intro hEq
    have hy : ((-100 : ℚ)) * (-0.0002) = 0 := congrArg Vec3.y hEq
    norm_num at hy
  exact ⟨hne, C6_camera_written_only_by_scroll (Op.scroll (-100)) initialState hne⟩

/-- C7: the Moon position is fixed at startup to (2, 0, 0): the statement
`moon.position.setZ = (30)` stores 30 in the shadowing `setZ` property and
leaves the Z coordinate at its default 0, and neither the Update Step nor the
Scroll Handler changes any Moon position coordinate. -/
theorem C7_moon_position_startup_only :
    initialState.moonPosition = (⟨2, 0, 0⟩ : Vec3) ∧
    initialState.moonPosSetZShadow = some 30 ∧
    (∀ s : State, (animate s).moonPosition = s.moonPosition) ∧
    (∀ (t : ℚ) (s : State), (moveCamera t s).moonPosition = s.moonPosition) :=
  ⟨rfl, rfl, fun _ => rfl, fun _ _ => rfl⟩

/-- C8: each `animate` invocation increments all three torus rotation axes by
0.01 unconditionally, performs exactly one controls update and exactly one
render, and in that order: every torus increment precedes the controls
update, which precedes the render.  (The JS function returns `undefined`;
the embedding is effects-only.) -/
theorem C8_animate_order_and_effects (s : State) :
    ((animate s).torusRotation.x = s.torusRotation.x + 0.01 ∧
     (animate s).torusRotation.y = s.torusRotation.y + 0.01 ∧
     (animate s).torusRotation.z = s.torusRotation.z + 0.01) ∧
    (animate s).controlsUpdates = s.controlsUpdates + 1 ∧
    (animate s).renderCalls = s.renderCalls + 1 ∧
    animateStmts.count Stmt.controlsUpdate = 1 ∧
    animateStmts.count Stmt.render = 1 ∧
    animateStmts.indexOf Stmt.incTorusZ < animateStmts.indexOf Stmt.controlsUpdate ∧
    animateStmts.indexOf Stmt.controlsUpdate < animateStmts.indexOf Stmt.render :=
  ⟨⟨rfl, rfl, rfl⟩, rfl, rfl, by decide, by decide, by decide, by decide⟩

/-- C9: the Torus rotation strictly increases on every axis at each Update
Step, scroll events never change it, and no core event ever decreases any of
its angles (no normalization). -/
theorem C9_torus_monotone (op : Op) (t : ℚ) (s : State) :
    (s.torusRotation.x < (animate s).torusRotation.x ∧
     s.torusRotation.y < (animate s).torusRotation.y ∧
     s.torusRotation.z < (animate s).torusRotation.z) ∧
    (moveCamera t s).torusRotation = s.torusRotation ∧
    (s.torusRotation.x ≤ (step s op).torusRotation.x ∧
     s.torusRotation.y ≤ (step s op).torusRotation.y ∧
     s.torusRotation.z ≤ (step s op).torusRotation.z) := by
  refine ⟨⟨?_, ?_, ?_⟩, moveCamera_torusRotation t s, ?_⟩
  · rw [animate_torus_x]
    exact lt_add_of_pos_right _ (by norm_num)
  · rw [animate_torus_y]
    exact lt_add_of_pos_right _ (by norm_num)
  · rw [animate_torus_z]
    exact lt_add_of_pos_right _ (by norm_num)
  · cases op with
    | frame =>
        refine ⟨?_, ?_, ?_⟩
        · rw [show (step s Op.frame).torusRotation.x = s.torusRotation.x + 0.01 from rfl]
          exact le_of_lt (lt_add_of_pos_right _ (by norm_num))
        · rw [show (step s Op.frame).torusRotation.y = s.torusRotation.y + 0.01 from rfl]
          exact le_of_lt (lt_add_of_pos_right _ (by norm_num))
        · rw [show (step s Op.frame).torusRotation.z = s.torusRotation.z + 0.01 from rfl]
          exact le_of_lt (lt_add_of_pos_right _ (by norm_num))
    | scroll u => exact ⟨le_refl _, le_refl _, le_refl _⟩

/-- C10: `animate` writes neither the Moon rotation nor the camera Y, and
`moveCamera` does not write the Torus rotation; hence along any interleaving,
Update Steps appended after the last scroll event leave the camera Y and the
Moon rotation unchanged, and the Torus rotation depends only on the number of
frame callbacks in the interleaving. -/
theorem C10_frame_scroll_separation (ops : List Op) (n : Nat) (s : State) :
    (run s (ops ++ List.replicate n Op.frame)).cameraPosition.y =
      (run s ops).cameraPosition.y ∧
    (run s (ops ++ List.replicate n Op.frame)).moonRotation = (run s ops).moonRotation ∧
    ((run s ops).torusRotation.x = s.torusRotation.x + (countFrames ops : ℚ) * 0.01 ∧
     (run s ops).torusRotation.y = s.torusRotation.y + (countFrames ops : ℚ) * 0.01 ∧
     (run s ops).torusRotation.z = s.torusRotation.z + (countFrames ops : ℚ) * 0.01) ∧
    (∀ s2 : State, (animate s2).moonRotation = s2.moonRotation ∧
        (animate s2).cameraPosition.y = s2.cameraPosition.y) ∧
    (∀ (t : ℚ) (s2 : State), (moveCamera t s2).torusRotation = s2.torusRotation) := by
  refine ⟨?_, ?_, ⟨run_torus_x ops s, run_torus_y ops s, run_torus_z ops s⟩,
    fun s2 => ⟨animate_moonRotation s2, congrArg Vec3.y (animate_cameraPosition s2)⟩,
    fun t s2 => moveCamera_torusRotation t s2⟩
  · rw [run_append, run_replicate_frame, animate_iter_cameraPosition]
  · rw [run_append, run_replicate_frame, animate_iter_moonRotation]

end ThreeJs
